import Mathlib

/-
Verification of the treasury-tracker schedule-generation and portfolio-aggregation
core (src/routers/investments.py, src/app/schemas.py, src/app/models.py).

Shallow embedding conventions:
* Python `datetime.date` is modelled by `Date` (year/month/day) with the usual
  lexicographic order; `dateutil.relativedelta(months=n)` is `addMonths`
  (month-level arithmetic, day-of-month clamped to the target month's length).
* `Decimal` money amounts are modelled by `ℚ` (the code performs only exact
  multiplications, divisions by small integers, sums and comparisons).
* The SQLAlchemy session is modelled by explicit state passing: the table of
  payment rows is a `List PaymentSchedule`, the whole store is `DB`.
  A raised Python exception is `Except.error`; an exception raised before
  `db.commit()` leaves the persisted state unchanged.
* Auto-generated uuid primary keys of payment rows are not modelled (they are
  nondeterministic and no claim depends on them); investment ids are `Nat`
  parameters supplied at creation.
-/

/-- Calendar date, mirroring Python `datetime.date` (year, month 1..12, day). -/
structure Date where
  year : Int
  month : Nat
  day : Nat
deriving DecidableEq, Repr

/-- Gregorian leap-year rule, as in Python's `calendar`/`datetime`. -/
def isLeapYear (y : Int) : Bool :=
  (y % 4 == 0 && y % 100 != 0) || (y % 400 == 0)

/-- Number of days in a month of a given year. -/
def daysInMonth (y : Int) (m : Nat) : Nat :=
  if m == 2 then (if isLeapYear y then 29 else 28)
  else if m == 4 || m == 6 || m == 9 || m == 11 then 30
  else 31

/-- Python `date.__le__`: lexicographic on (year, month, day). -/
def dateLe (a b : Date) : Bool :=
  a.year < b.year ||
    (a.year == b.year &&
      (a.month < b.month || (a.month == b.month && a.day ≤ b.day)))

/-- Python `date.__lt__`: strict lexicographic on (year, month, day). -/
def dateLt (a b : Date) : Bool :=
  a.year < b.year ||
    (a.year == b.year &&
      (a.month < b.month || (a.month == b.month && a.day < b.day)))

/-- `dateutil.relativedelta(months := n)` added to a date: month-level
arithmetic preserving the day-of-month where valid and clamping to the last
valid day of the target month otherwise (Jan 31 + 6 months = Jul 31,
Aug 31 + 6 months = Feb 28/29). -/
def addMonths (d : Date) (n : Nat) : Date :=
  let t : Nat := d.month - 1 + n
  let y : Int := d.year + (t / 12 : Nat)
  let m : Nat := t % 12 + 1
  { year := y, month := m, day := min d.day (daysInMonth y m) }

/-- Linear month counter used to reason about the 6-month cadence. -/
def monthIndex (d : Date) : Int :=
  12 * d.year + (d.month : Int)

/-- Successor day in the Gregorian calendar. -/
def nextDay (d : Date) : Date :=
  if d.day < daysInMonth d.year d.month then
    { d with day := d.day + 1 }
  else if d.month < 12 then
    { year := d.year, month := d.month + 1, day := 1 }
  else
    { year := d.year + 1, month := 1, day := 1 }

/-- Python `date + timedelta(days := n)`. -/
def addDays (d : Date) : Nat → Date
  | 0 => d
  | n + 1 => addDays (nextDay d) n

/-- The cadence sequence of the Treasury-note loop: `cadenceDate d k` is the
anchor `d` advanced `k` times by single 6-month steps (each step clamps
independently, so this is not in general `addMonths d (6 * k)`). -/
def cadenceDate (anchor : Date) : Nat → Date
  | 0 => anchor
  | k + 1 => addMonths (cadenceDate anchor k) 6

/-- `models.InvestmentType`. -/
inductive InvestmentType where
  | treasury_note
  | treasury_bill
deriving DecidableEq, Repr

/-- `models.InvestmentStatus`. -/
inductive InvestmentStatus where
  | active
  | matured
  | sold
  | cancelled
deriving DecidableEq, Repr

/-- `models.PaymentType`. -/
inductive PaymentType where
  | coupon
  | principal
  | final_payment
deriving DecidableEq, Repr

/-- `models.PaymentStatus`. -/
inductive PaymentStatus where
  | pending
  | due
  | paid
  | overdue
deriving DecidableEq, Repr

/-- Row of the `payment_schedules` table (`models.PaymentSchedule`); the
nondeterministic uuid primary key is not modelled. -/
structure PaymentSchedule where
  investment_id : Nat
  payment_date : Date
  payment_amount : ℚ
  payment_type : PaymentType
  payment_status : PaymentStatus
  description : String
deriving DecidableEq, Repr

/-- Row of the `investments` table (`models.Investment`). -/
structure Investment where
  id : Nat
  user_id : Nat
  investment_type : InvestmentType
  description : Option String
  face_value : ℚ
  purchase_price : ℚ
  annual_coupon_rate : ℚ
  issue_date : Option Date
  purchase_date : Date
  maturity_date : Date
  status : InvestmentStatus
deriving DecidableEq, Repr

/-- Request body of `POST /investments/` (`schemas.InvestmentCreate`). -/
structure InvestmentCreate where
  investment_type : InvestmentType
  description : Option String
  face_value : ℚ
  purchase_price : ℚ
  annual_coupon_rate : ℚ
  issue_date : Option Date
  purchase_date : Date
  maturity_date : Date
deriving DecidableEq, Repr

/-- Request body of `PUT /investments/{id}` (`schemas.InvestmentUpdate`): only
`description` and `status` exist as fields. The outer `Option` is pydantic's
set-versus-unset distinction realised by `dict(exclude_unset=True)`. -/
structure InvestmentUpdate where
  description : Option (Option String)
  status : Option InvestmentStatus
deriving DecidableEq, Repr

/-- The relational store visible to the router: the two tables the claims
touch. -/
structure DB where
  investments : List Investment
  payments : List PaymentSchedule
deriving DecidableEq, Repr

/-- Response model of `GET /investments/portfolio/summary`
(`schemas.PortfolioSummary`). -/
structure PortfolioSummary where
  total_investments : Nat
  active_investments : Nat
  total_face_value : ℚ
  total_purchase_price : ℚ
  expected_returns : ℚ
  expected_profit : ℚ
  portfolio_yield : ℚ
deriving DecidableEq, Repr

/-- Element of the `GET /investments/portfolio/upcoming-payments` response
(`schemas.UpcomingPayment`); the payment row's uuid is not modelled. -/
structure UpcomingPayment where
  investment_id : Nat
  investment_description : Option String
  investment_type : InvestmentType
  payment_date : Date
  payment_amount : ℚ
  payment_type : PaymentType
  payment_status : PaymentStatus
  description : String
deriving DecidableEq, Repr

/-- Python runtime errors raised by the embedded code paths. -/
inductive PyRuntimeError where
  | typeError
  | nameError (name : String)
deriving DecidableEq, Repr

/-- Loop body of `generate_payment_schedule` for treasury notes
(investments.py lines 37-62): while the candidate date is on or before the
maturity date, emit one payment (final payment exactly when the candidate
equals maturity, otherwise an ordinal-numbered coupon) and advance the
candidate by 6 months. `fuel` bounds the number of iterations; it is a
modelling artifact for the unbounded Python `while` and is always supplied
large enough (see `notePayments` and `noteLoop_spec`). -/
def noteLoop (fuel : Nat) (invId : Nat) (coupon_amount face_value : ℚ)
    (maturity : Date) (current : Date) (count : Nat) : List PaymentSchedule :=
  match fuel with
  | 0 => []
  | f + 1 =>
    if dateLe current maturity then
      (if current = maturity then
        { investment_id := invId, payment_date := current,
          payment_amount := coupon_amount + face_value,
          payment_type := PaymentType.final_payment,
          payment_status := PaymentStatus.pending,
          description := "Final coupon payment + Principal repayment" }
      else
        { investment_id := invId, payment_date := current,
          payment_amount := coupon_amount,
          payment_type := PaymentType.coupon,
          payment_status := PaymentStatus.pending,
          description := "Semi-annual coupon payment #" ++ toString (count + 1) })
      :: noteLoop f invId coupon_amount face_value maturity
          (addMonths current 6) (count + 1)
    else []

/-- Treasury-note branch of `generate_payment_schedule` (lines 25-62):
`coupon_amount = face_value * annual_coupon_rate / 2`, the first candidate is
`issue_date + relativedelta(months=6)`, then the 6-month loop. The code reads
`investment.issue_date` unconditionally; when it is `None`,
`None + relativedelta(months=6)` raises `TypeError` (there is no fallback to
`purchase_date` anywhere in the repository). -/
def notePayments (inv : Investment) : Except PyRuntimeError (List PaymentSchedule) :=
  match inv.issue_date with
  | none => Except.error PyRuntimeError.typeError
  | some d0 =>
    let coupon_amount := inv.face_value * inv.annual_coupon_rate / 2
    let first := addMonths d0 6
    let fuel := (monthIndex inv.maturity_date + 1 - monthIndex first).toNat + 1
    Except.ok (noteLoop fuel inv.id coupon_amount inv.face_value
      inv.maturity_date first 0)

/-- The rows `generate_payment_schedule` adds for one investment
(lines 25-73): the note loop for notes, the single maturity principal payment
for bills. -/
def generatedEvents (inv : Investment) : Except PyRuntimeError (List PaymentSchedule) :=
  match inv.investment_type with
  | InvestmentType.treasury_note => notePayments inv
  | InvestmentType.treasury_bill =>
    Except.ok [{ investment_id := inv.id, payment_date := inv.maturity_date,
                 payment_amount := inv.face_value,
                 payment_type := PaymentType.principal,
                 payment_status := PaymentStatus.pending,
                 description := "Treasury bill maturity payment" }]

/-- `generate_payment_schedule(db, investment)` (lines 20-75) as a transition
on the persisted `payment_schedules` table: delete every existing row of this
investment, insert the generated rows, `db.commit()`. When the generator
raises before the final `db.commit()`, the pending delete is never committed,
so the persisted table is unchanged (`Except.error`). -/
def generate_payment_schedule (payments : List PaymentSchedule)
    (inv : Investment) : Except PyRuntimeError (List PaymentSchedule) :=
  match generatedEvents inv with
  | Except.error e => Except.error e
  | Except.ok evs =>
    Except.ok (payments.filter (fun p => !(p.investment_id == inv.id)) ++ evs)

/-- `create_investment` (lines 77-97): build the investment row from the
request body with `status` defaulting to active and the caller-supplied fresh
id, `db.add`; `db.commit()` — the investment is now persisted — then invoke
`generate_payment_schedule`. The result is the raised error (if any) together
with the state that remains persisted after the request: a generator failure
happens after the investment's own commit, so the investment row survives it.
-/
def create_investment (db : DB) (user_id newId : Nat) (data : InvestmentCreate) :
    Option PyRuntimeError × DB :=
  let inv : Investment :=
    { id := newId, user_id := user_id,
      investment_type := data.investment_type,
      description := data.description,
      face_value := data.face_value,
      purchase_price := data.purchase_price,
      annual_coupon_rate := data.annual_coupon_rate,
      issue_date := data.issue_date,
      purchase_date := data.purchase_date,
      maturity_date := data.maturity_date,
      status := InvestmentStatus.active }
  let db1 : DB := { db with investments := db.investments ++ [inv] }
  match generate_payment_schedule db1.payments inv with
  | Except.error e => (some e, db1)
  | Except.ok ps => (none, { db1 with payments := ps })

/-- Python `payment_status in [PaymentStatus.PENDING, PaymentStatus.DUE]`. -/
def pendingDue (p : PaymentSchedule) : Bool :=
  p.payment_status == PaymentStatus.pending ||
    p.payment_status == PaymentStatus.due

/-- `get_portfolio_summary` (lines 268-306): restrict to the user's active
investments, sum face values and purchase prices, fold the pending/due payment
amounts of each active investment into `expected_returns`, and guard the yield
division by `total_purchase_price > 0`. -/
def get_portfolio_summary (db : DB) (user : Nat) : PortfolioSummary :=
  let investments := db.investments.filter
    (fun i => i.user_id == user && i.status == InvestmentStatus.active)
  let total_investments := investments.length
  let active_investments := total_investments
  let total_face_value := (investments.map (fun i => i.face_value)).sum
  let total_purchase_price := (investments.map (fun i => i.purchase_price)).sum
  let expected_returns := (investments.map (fun inv =>
    ((db.payments.filter
        (fun p => p.investment_id == inv.id && pendingDue p)).map
      (fun p => p.payment_amount)).sum)).sum
  let expected_profit := expected_returns - total_purchase_price
  let portfolio_yield :=
    if total_purchase_price > 0 then
      expected_profit / total_purchase_price * 100
    else 0
  { total_investments := total_investments,
    active_investments := active_investments,
    total_face_value := total_face_value,
    total_purchase_price := total_purchase_price,
    expected_returns := expected_returns,
    expected_profit := expected_profit,
    portfolio_yield := portfolio_yield }

/-- Names bound at module level in src/routers/investments.py: the imports of
lines 1-16 (the `datetime` import on line 5 brings in only `datetime` and
`date`) plus the module's own definitions. `timedelta` is not among them; the
`relativedelta` import on line 34 is function-local to
`generate_payment_schedule`. -/
def investmentsModuleNames : List String :=
  ["APIRouter", "Depends", "HTTPException", "status", "Query",
   "Session", "and_", "or_", "List", "Optional", "datetime", "date",
   "Decimal", "uuid", "get_db", "User", "Investment", "PaymentSchedule",
   "InvestmentType", "InvestmentStatus", "PaymentStatus",
   "InvestmentCreate", "InvestmentUpdate", "InvestmentResponse",
   "InvestmentWithPayments", "PaymentScheduleResponse",
   "PaymentScheduleUpdate", "PortfolioSummary", "PortfolioResponse",
   "UpcomingPayment", "SuccessResponse", "get_current_user", "router",
   "generate_payment_schedule", "create_investment", "get_investments",
   "get_investment", "update_investment", "delete_investment",
   "get_payment_schedule", "update_payment", "get_portfolio_summary",
   "get_upcoming_payments", "get_full_portfolio"]

/-- The name whose resolution line 316 attempts. -/
def timedeltaName : String := "timedelta"

/-- Insertion step for ordering joined rows by payment date
(`order_by(PaymentSchedule.payment_date)`). -/
def insertByDate (x : PaymentSchedule × Investment) :
    List (PaymentSchedule × Investment) → List (PaymentSchedule × Investment)
  | [] => [x]
  | y :: ys =>
    if dateLe x.1.payment_date y.1.payment_date then x :: y :: ys
    else y :: insertByDate x ys

/-- Ascending sort by payment date. -/
def sortByDate (l : List (PaymentSchedule × Investment)) :
    List (PaymentSchedule × Investment) :=
  l.foldr insertByDate []

/-- `get_upcoming_payments` (lines 308-342). Its first statement,
`end_date = date.today() + timedelta(days=days_ahead)`, refers to the free
name `timedelta`, which is bound neither in the module scope
(`investmentsModuleNames`) nor as a builtin, so Python raises
`NameError: name 'timedelta' is not defined` before any query runs. The
intended query (join to the user's investments, keep pending/due rows dated
within `[today, today + days_ahead]`, order ascending by date, truncate to
`limit`) is embedded in the guarded branch, which is unreachable. -/
def get_upcoming_payments (db : DB) (user : Nat) (today : Date)
    (days_ahead limit : Nat) : Except PyRuntimeError (List UpcomingPayment) :=
  if investmentsModuleNames.contains timedeltaName then
    let end_date := addDays today days_ahead
    let joined := db.payments.flatMap (fun p =>
      (db.investments.filter (fun i => i.id == p.investment_id)).map
        (fun i => (p, i)))
    let rows := joined.filter (fun pi =>
      pi.2.user_id == user && pendingDue pi.1 &&
        dateLe today pi.1.payment_date && dateLe pi.1.payment_date end_date)
    Except.ok (((sortByDate rows).take limit).map (fun pi =>
      { investment_id := pi.1.investment_id,
        investment_description := pi.2.description,
        investment_type := pi.2.investment_type,
        payment_date := pi.1.payment_date,
        payment_amount := pi.1.payment_amount,
        payment_type := pi.1.payment_type,
        payment_status := pi.1.payment_status,
        description := pi.1.description }))
  else Except.error (PyRuntimeError.nameError timedeltaName)

/-- The `setattr` loop of `update_investment` (lines 166-168) applied to the
fields present in `dict(exclude_unset=True)`, in the schema's field order. -/
def applyInvestmentUpdate (u : InvestmentUpdate) (inv : Investment) : Investment :=
  let inv := match u.description with
    | some d => { inv with description := d }
    | none => inv
  match u.status with
  | some s => { inv with status := s }
  | none => inv

/-- Mutate the first row matching the predicate, as SQLAlchemy's
`.first()` + `setattr` does. -/
def updateFirst (l : List Investment) (p : Investment → Bool)
    (f : Investment → Investment) : List Investment :=
  match l with
  | [] => []
  | x :: xs => if p x then f x :: xs else x :: updateFirst xs p f

/-- Error surface of `update_investment` that the claims touch. -/
inductive UpdateError where
  | notFound
deriving DecidableEq, Repr

/-- `update_investment` (lines 147-173): look up the investment by id and
owner (404 when absent), apply the partial update, `db.commit()`. No call to
`generate_payment_schedule` occurs on this path, so the payments table is
untouched. -/
def update_investment (db : DB) (user invId : Nat) (u : InvestmentUpdate) :
    Except UpdateError DB :=
  match db.investments.find? (fun i => i.id == invId && i.user_id == user) with
  | none => Except.error UpdateError.notFound
  | some _ =>
    Except.ok { db with investments :=
      (updateFirst db.investments
        (fun i => i.id == invId && i.user_id == user)
        (applyInvestmentUpdate u)) }

/-- Claim C1's predicted note schedule, following the claim's words rather
than the source: events at the cadence anchor advanced by 6, 12, 18, ...
calendar months — each candidate a single month-arithmetic jump
`addMonths anchor (6 * (k + 1))` from the anchor, preserving the anchor's
day-of-month where valid and clamping only against the target month — for as
long as the candidate is on or before maturity; a candidate strictly before
maturity is a coupon of `face_value * annual_coupon_rate / 2`, one equal to
maturity is a final payment of coupon + face value. -/
def claimNoteEvents (inv : Investment) (anchor : Date) : List PaymentSchedule :=
  let coupon_amount := inv.face_value * inv.annual_coupon_rate / 2
  let n := (monthIndex inv.maturity_date + 1 - monthIndex anchor).toNat / 6 + 1
  (List.range n).filterMap (fun k =>
    let dte := addMonths anchor (6 * (k + 1))
    if dateLe dte inv.maturity_date then
      some (if dte = inv.maturity_date then
        { investment_id := inv.id, payment_date := dte,
          payment_amount := coupon_amount + inv.face_value,
          payment_type := PaymentType.final_payment,
          payment_status := PaymentStatus.pending,
          description := "Final coupon payment + Principal repayment" }
      else
        { investment_id := inv.id, payment_date := dte,
          payment_amount := coupon_amount,
          payment_type := PaymentType.coupon,
          payment_status := PaymentStatus.pending,
          description := "Semi-annual coupon payment #" ++ toString (k + 1) })
    else none)

/-
Date-arithmetic lemmas.
-/

lemma dateLe_eq_true_iff (a b : Date) : dateLe a b = true ↔
    (a.year < b.year ∨ (a.year = b.year ∧
      (a.month < b.month ∨ (a.month = b.month ∧ a.day ≤ b.day)))) := by
  simp [dateLe]

/-- Validity of a Python `datetime.date`: months 1..12, days within the
month. Every date the program manipulates satisfies this. -/
def validDate (d : Date) : Prop :=
  1 ≤ d.month ∧ d.month ≤ 12 ∧ 1 ≤ d.day ∧ d.day ≤ daysInMonth d.year d.month

instance (d : Date) : Decidable (validDate d) := by
  unfold validDate
  infer_instance

lemma dateLe_monthIndex {a b : Date} (hm : a.month ≤ 12)
    (h : dateLe a b = true) : monthIndex a ≤ monthIndex b := by
  rw [dateLe_eq_true_iff] at h
  simp only [monthIndex]
  omega

lemma not_dateLe_monthIndex {a b : Date} (hm : b.month ≤ 12)
    (h : dateLe a b = false) : monthIndex b ≤ monthIndex a := by
  have h2 : ¬ (a.year < b.year ∨ (a.year = b.year ∧
      (a.month < b.month ∨ (a.month = b.month ∧ a.day ≤ b.day)))) := by
    rw [← dateLe_eq_true_iff]
    simp [h]
  simp only [monthIndex]
  omega

lemma dateLe_eq_false_of_monthIndex_lt {a b : Date} (hm : b.month ≤ 12)
    (h : monthIndex a < monthIndex b) : dateLe b a = false := by
  cases hb : dateLe b a with
  | false => rfl
  | true => exact absurd (dateLe_monthIndex hm hb) (by omega)

lemma addMonths_month_le (d : Date) (n : Nat) : (addMonths d n).month ≤ 12 := by
  simp only [addMonths]
  omega

lemma cadenceDate_month_le (d : Date) (k : Nat) :
    (cadenceDate d (k + 1)).month ≤ 12 :=
  addMonths_month_le (cadenceDate d k) 6

lemma monthIndex_addMonths (d : Date) (n : Nat) :
    monthIndex (addMonths d n) = 12 * d.year + ((d.month - 1 + n : Nat) : Int) + 1 := by
  simp only [addMonths, monthIndex]
  push_cast
  omega

lemma monthIndex_addMonths6_lt (d : Date) :
    monthIndex d < monthIndex (addMonths d 6) := by
  rw [monthIndex_addMonths]
  simp only [monthIndex]
  omega

lemma cadenceDate_monthIndex_lt (d : Date) (n k : Nat) :
    monthIndex (cadenceDate d n) < monthIndex (cadenceDate d (n + k + 1)) := by
  induction k with
  | zero => exact monthIndex_addMonths6_lt (cadenceDate d n)
  | succ k ih =>
    exact lt_trans ih (monthIndex_addMonths6_lt (cadenceDate d (n + k + 1)))

/-
Characterization of the note loop.
-/

/-- The event the note loop emits for the candidate date `dte` with 1-based
ordinal `m`. -/
def expectedNoteEvent (invId : Nat) (cp fv : ℚ) (mat dte : Date) (m : Nat) :
    PaymentSchedule :=
  if dte = mat then
    { investment_id := invId, payment_date := dte,
      payment_amount := cp + fv,
      payment_type := PaymentType.final_payment,
      payment_status := PaymentStatus.pending,
      description := "Final coupon payment + Principal repayment" }
  else
    { investment_id := invId, payment_date := dte,
      payment_amount := cp,
      payment_type := PaymentType.coupon,
      payment_status := PaymentStatus.pending,
      description := "Semi-annual coupon payment #" ++ toString m }

/-- Full characterization of the note loop run from the `(j+1)`-th cadence
candidate with enough fuel: the emitted events are exactly indexed by the
cadence candidates that are on or before maturity, and the `k`-th event is the
expected payment for the `(j+1+k)`-th candidate. -/
lemma noteLoop_spec (invId : Nat) (cp fv : ℚ) (mat anchor : Date)
    (hmat : mat.month ≤ 12) :
    ∀ (fuel j : Nat),
      (monthIndex mat + 1 - monthIndex (cadenceDate anchor (j + 1))).toNat ≤ fuel →
      (∀ k, (dateLe (cadenceDate anchor (j + 1 + k)) mat = true ↔
        k < (noteLoop fuel invId cp fv mat (cadenceDate anchor (j + 1)) j).length)) ∧
      (∀ k (hk : k < (noteLoop fuel invId cp fv mat (cadenceDate anchor (j + 1)) j).length),
        (noteLoop fuel invId cp fv mat (cadenceDate anchor (j + 1)) j).get ⟨k, hk⟩ =
          expectedNoteEvent invId cp fv mat (cadenceDate anchor (j + 1 + k)) (j + 1 + k)) := by
  intro fuel
  induction fuel with
  | zero =>
    intro j hfuel
    have h0 : monthIndex mat < monthIndex (cadenceDate anchor (j + 1)) := by
      omega
    constructor
    · intro k
      have hlt : monthIndex mat < monthIndex (cadenceDate anchor (j + 1 + k)) := by
        cases k with
        | zero => exact h0
        | succ k => exact lt_trans h0 (cadenceDate_monthIndex_lt anchor (j + 1) k)
      have hf : dateLe (cadenceDate anchor (j + 1 + k)) mat = false := by
        have hm : (cadenceDate anchor (j + 1 + k)).month ≤ 12 := by
          have : j + 1 + k = (j + k) + 1 := by omega
          rw [this]
          exact cadenceDate_month_le anchor (j + k)
        exact dateLe_eq_false_of_monthIndex_lt hm hlt
      simp [noteLoop, hf]
    · intro k hk
      simp [noteLoop] at hk
  | succ f ih =>
    intro j hfuel
    by_cases hc : dateLe (cadenceDate anchor (j + 1)) mat = true
    · -- candidate on or before maturity: one event is emitted, loop recurses
      have hcm : (cadenceDate anchor (j + 1)).month ≤ 12 :=
        cadenceDate_month_le anchor j
      have hle : monthIndex (cadenceDate anchor (j + 1)) ≤ monthIndex mat :=
        dateLe_monthIndex hcm hc
      have hstep : monthIndex (cadenceDate anchor (j + 1)) <
          monthIndex (cadenceDate anchor (j + 1 + 1)) :=
        cadenceDate_monthIndex_lt anchor (j + 1) 0
      have hfuel2 :
          (monthIndex mat + 1 - monthIndex (cadenceDate anchor (j + 1 + 1))).toNat ≤ f := by
        omega
      obtain ⟨ih1, ih2⟩ := ih (j + 1) hfuel2
      have hunf : noteLoop (f + 1) invId cp fv mat (cadenceDate anchor (j + 1)) j =
          expectedNoteEvent invId cp fv mat (cadenceDate anchor (j + 1)) (j + 1) ::
            noteLoop f invId cp fv mat (cadenceDate anchor (j + 1 + 1)) (j + 1) := by
        simp only [noteLoop, hc, if_true, expectedNoteEvent]
        rfl
      rw [hunf]
      constructor
      · intro k
        cases k with
        | zero =>
          simp only [List.length_cons]
          constructor
          · intro _
            omega
          · intro _
            exact hc
        | succ k =>
          have hidx : j + 1 + (k + 1) = (j + 1) + 1 + k := by omega
          rw [hidx, ih1 k]
          simp only [List.length_cons]
          omega
      · intro k hk
        cases k with
        | zero => rfl
        | succ k =>
          have hk2 : k < (noteLoop f invId cp fv mat
              (cadenceDate anchor (j + 1 + 1)) (j + 1)).length := by
            simpa using hk
          have hidx : j + 1 + (k + 1) = (j + 1) + 1 + k := by omega
          rw [hidx]
          simpa using ih2 k hk2
    · -- candidate already past maturity: the loop emits nothing
      have hc2 : dateLe (cadenceDate anchor (j + 1)) mat = false := by
        simpa using hc
      have hle : monthIndex mat ≤ monthIndex (cadenceDate anchor (j + 1)) :=
        not_dateLe_monthIndex hmat hc2
      constructor
      · intro k
        have hf : dateLe (cadenceDate anchor (j + 1 + k)) mat = false := by
          cases k with
          | zero => exact hc2
          | succ k =>
            have hlt : monthIndex (cadenceDate anchor (j + 1)) <
                monthIndex (cadenceDate anchor (j + 1 + (k + 1))) :=
              cadenceDate_monthIndex_lt anchor (j + 1) k
            have hm : (cadenceDate anchor (j + 1 + (k + 1))).month ≤ 12 := by
              have : j + 1 + (k + 1) = (j + 1 + k) + 1 := by omega
              rw [this]
              exact cadenceDate_month_le anchor (j + 1 + k)
            exact dateLe_eq_false_of_monthIndex_lt hm (by omega)
        simp [noteLoop, hc2, hf]
      · intro k hk
        simp [noteLoop, hc2] at hk


lemma noteLoop_nil_of_false (invId : Nat) (cp fv : ℚ) (mat current : Date)
    (fuel count : Nat) (h : dateLe current mat = false) :
    noteLoop fuel invId cp fv mat current count = [] := by
  cases fuel with
  | zero => rfl
  | succ f => simp [noteLoop, h]

lemma noteLoop_mem_invId (invId : Nat) (cp fv : ℚ) (mat : Date) :
    ∀ (fuel : Nat) (current : Date) (count : Nat) (e : PaymentSchedule),
      e ∈ noteLoop fuel invId cp fv mat current count → e.investment_id = invId := by
  intro fuel
  induction fuel with
  | zero =>
    intro current count e he
    simp [noteLoop] at he
  | succ f ih =>
    intro current count e he
    by_cases hc : dateLe current mat = true
    · simp only [noteLoop, hc, if_true, List.mem_cons] at he
      rcases he with he | he
      · subst he
        by_cases hm : current = mat
        · simp [hm]
        · simp [hm]
      · exact ih (addMonths current 6) (count + 1) e he
    · rw [noteLoop_nil_of_false invId cp fv mat current (f + 1) count
        (by simpa using hc)] at he
      simp at he

lemma noteLoop_mem_final_date (invId : Nat) (cp fv : ℚ) (mat : Date) :
    ∀ (fuel : Nat) (current : Date) (count : Nat) (e : PaymentSchedule),
      e ∈ noteLoop fuel invId cp fv mat current count →
      (e.payment_type = PaymentType.principal ∨
        e.payment_type = PaymentType.final_payment) →
      e.payment_date = mat := by
  intro fuel
  induction fuel with
  | zero =>
    intro current count e he
    simp [noteLoop] at he
  | succ f ih =>
    intro current count e he htype
    by_cases hc : dateLe current mat = true
    · simp only [noteLoop, hc, if_true, List.mem_cons] at he
      rcases he with he | he
      · subst he
        by_cases hm : current = mat
        · simp [hm]
        · simp [hm] at htype
      · exact ih (addMonths current 6) (count + 1) e he htype
    · rw [noteLoop_nil_of_false invId cp fv mat current (f + 1) count
        (by simpa using hc)] at he
      simp at he

/-- A payment is a redemption event when its kind is principal or
final-payment. -/
def isRedemption (e : PaymentSchedule) : Bool :=
  e.payment_type == PaymentType.principal ||
    e.payment_type == PaymentType.final_payment

lemma noteLoop_redemption_count (invId : Nat) (cp fv : ℚ) (mat : Date) :
    ∀ (fuel : Nat) (current : Date) (count : Nat),
      ((noteLoop fuel invId cp fv mat current count).filter isRedemption).length ≤ 1 := by
  intro fuel
  induction fuel with
  | zero =>
    intro current count
    simp [noteLoop]
  | succ f ih =>
    intro current count
    by_cases hc : dateLe current mat = true
    · simp only [noteLoop, hc, if_true]
      by_cases hm : current = mat
      · subst hm
        have hnext : dateLe (addMonths current 6) current = false :=
          dateLe_eq_false_of_monthIndex_lt (addMonths_month_le current 6)
            (monthIndex_addMonths6_lt current)
        rw [noteLoop_nil_of_false invId cp fv current (addMonths current 6) f
          (count + 1) hnext]
        simp [isRedemption]
      · rw [if_neg hm]
        simpa [List.filter, isRedemption] using ih (addMonths current 6) (count + 1)
    · rw [noteLoop_nil_of_false invId cp fv mat current (f + 1) count
        (by simpa using hc)]
      simp

/-
List lemmas for idempotence (C5), sum exchange (C7) and the update frame
(C10).
-/

lemma filter_not_invId_self (inv : Investment) (l : List PaymentSchedule)
    (h : ∀ e ∈ l, e.investment_id = inv.id) :
    l.filter (fun p => !(p.investment_id == inv.id)) = [] := by
  induction l with
  | nil => rfl
  | cons x xs ih =>
    have hx : x.investment_id = inv.id := h x (List.mem_cons_self x xs)
    simp [List.filter, hx, ih fun e he => h e (List.mem_cons_of_mem x he)]

lemma filter_not_invId_idem (inv : Investment) (l : List PaymentSchedule) :
    (l.filter (fun p => !(p.investment_id == inv.id))).filter
        (fun p => !(p.investment_id == inv.id)) =
      l.filter (fun p => !(p.investment_id == inv.id)) := by
  rw [List.filter_filter]
  apply List.filter_congr
  intro a _
  exact Bool.and_self _

lemma sum_filter_or_disjoint (ps : List PaymentSchedule)
    (f g : PaymentSchedule → Bool)
    (hdisj : ∀ p, ¬(f p = true ∧ g p = true)) :
    ((ps.filter (fun p => f p || g p)).map (fun p => p.payment_amount)).sum =
      ((ps.filter f).map (fun p => p.payment_amount)).sum +
        ((ps.filter g).map (fun p => p.payment_amount)).sum := by
  induction ps with
  | nil => simp
  | cons x xs ih =>
    by_cases hf : f x = true
    · have hg : g x = false := by
        cases hgx : g x with
        | false => rfl
        | true => exact absurd ⟨hf, hgx⟩ (hdisj x)
      simp only [List.filter_cons, hf, hg, Bool.true_or, if_true, if_false,
        List.map_cons, List.sum_cons, ih]
      simp only [Bool.false_eq_true, if_false]
      ring
    · have hfx : f x = false := Bool.eq_false_iff.mpr hf
      by_cases hg : g x = true
      · simp only [List.filter_cons, hfx, hg, Bool.false_or, if_true,
          List.map_cons, List.sum_cons, ih]
        simp only [Bool.false_eq_true, if_false]
        ring
      · have hgx : g x = false := Bool.eq_false_iff.mpr hg
        simp only [List.filter_cons, hfx, hgx, Bool.or_self, ih]
        simp only [Bool.false_eq_true, if_false]
        exact ih

lemma expected_returns_exchange (ps : List PaymentSchedule) :
    ∀ (invs : List Investment), (invs.map (fun i => i.id)).Nodup →
    (invs.map (fun inv =>
      ((ps.filter (fun p => p.investment_id == inv.id && pendingDue p)).map
        (fun p => p.payment_amount)).sum)).sum =
      ((ps.filter (fun p => pendingDue p &&
          invs.any (fun i => i.id == p.investment_id))).map
        (fun p => p.payment_amount)).sum := by
  intro invs
  induction invs with
  | nil =>
    intro _
    simp
  | cons inv t ih =>
    intro hnd
    have hnd' : (t.map (fun i => i.id)).Nodup := (List.nodup_cons.mp hnd).2
    have hnotmem : inv.id ∉ t.map (fun i => i.id) := (List.nodup_cons.mp hnd).1
    have hsplit :
        ps.filter (fun p => pendingDue p &&
            (inv :: t).any (fun i => i.id == p.investment_id)) =
          ps.filter (fun p =>
            (pendingDue p && (inv.id == p.investment_id)) ||
              (pendingDue p && t.any (fun i => i.id == p.investment_id))) := by
      apply List.filter_congr
      intro p _
      rw [Bool.eq_iff_iff]
      simp only [List.any_cons, Bool.and_eq_true, Bool.or_eq_true]
      tauto
    have hdisj : ∀ p : PaymentSchedule,
        ¬((pendingDue p && (inv.id == p.investment_id)) = true ∧
          (pendingDue p && t.any (fun i => i.id == p.investment_id)) = true) := by
      intro p ⟨h1, h2⟩
      simp only [Bool.and_eq_true, List.any_eq_true, beq_iff_eq] at h1 h2
      obtain ⟨i, hi, hieq⟩ := h2.2
      exact hnotmem (List.mem_map.mpr ⟨i, hi, by omega⟩)
    have hfirst :
        ps.filter (fun p => p.investment_id == inv.id && pendingDue p) =
          ps.filter (fun p => pendingDue p && (inv.id == p.investment_id)) := by
      apply List.filter_congr
      intro p _
      rw [Bool.eq_iff_iff]
      simp only [Bool.and_eq_true, beq_iff_eq]
      constructor
      · rintro ⟨h1, h2⟩
        exact ⟨h2, h1.symm⟩
      · rintro ⟨h1, h2⟩
        exact ⟨h2.symm, h1⟩
    simp only [List.map_cons, List.sum_cons, ih hnd', hsplit, hfirst,
      sum_filter_or_disjoint ps _ _ hdisj]

/-- The seven schedule-relevant fields plus identity that an update leaves
unchanged. -/
def frameAgree (a b : Investment) : Prop :=
  b.id = a.id ∧ b.user_id = a.user_id ∧ b.investment_type = a.investment_type ∧
  b.face_value = a.face_value ∧ b.purchase_price = a.purchase_price ∧
  b.annual_coupon_rate = a.annual_coupon_rate ∧ b.issue_date = a.issue_date ∧
  b.purchase_date = a.purchase_date ∧ b.maturity_date = a.maturity_date

lemma frameAgree_refl (a : Investment) : frameAgree a a := by
  unfold frameAgree
  exact ⟨rfl, rfl, rfl, rfl, rfl, rfl, rfl, rfl, rfl⟩

lemma applyInvestmentUpdate_frame (u : InvestmentUpdate) (inv : Investment) :
    frameAgree inv (applyInvestmentUpdate u inv) := by
  unfold applyInvestmentUpdate frameAgree
  cases u.description <;> cases u.status <;> simp

lemma updateFirst_forall2 (p : Investment → Bool)
    (f : Investment → Investment) (hf : ∀ x, frameAgree x (f x)) :
    ∀ l : List Investment, List.Forall₂ frameAgree l (updateFirst l p f) := by
  intro l
  induction l with
  | nil => exact List.Forall₂.nil
  | cons x xs ih =>
    by_cases hx : p x = true
    · simp only [updateFirst, hx, if_true]
      exact List.Forall₂.cons (hf x)
        (List.forall₂_same.mpr fun a _ => frameAgree_refl a)
    · have hx2 : p x = false := Bool.eq_false_iff.mpr hx
      simp only [updateFirst, hx2, Bool.false_eq_true, if_false]
      exact List.Forall₂.cons (frameAgree_refl x) ih

/-
Concrete instances used by the claim theorems, witnesses and counterexamples.
-/

/-- Worked example from the spec: a note issued and purchased 2024-01-15,
maturing 2026-01-15, coupon rate 0.10, face value 100000. -/
def c1ExampleInv : Investment :=
  { id := 1, user_id := 1, investment_type := InvestmentType.treasury_note,
    description := none, face_value := 100000, purchase_price := 98000,
    annual_coupon_rate := 1/10, issue_date := some ⟨2024, 1, 15⟩,
    purchase_date := ⟨2024, 1, 15⟩, maturity_date := ⟨2026, 1, 15⟩,
    status := InvestmentStatus.active }

/-- The four events the worked example must produce. -/
def c1ExampleEvents : List PaymentSchedule :=
  [{ investment_id := 1, payment_date := ⟨2024, 7, 15⟩, payment_amount := 5000,
     payment_type := PaymentType.coupon, payment_status := PaymentStatus.pending,
     description := "Semi-annual coupon payment #1" },
   { investment_id := 1, payment_date := ⟨2025, 1, 15⟩, payment_amount := 5000,
     payment_type := PaymentType.coupon, payment_status := PaymentStatus.pending,
     description := "Semi-annual coupon payment #2" },
   { investment_id := 1, payment_date := ⟨2025, 7, 15⟩, payment_amount := 5000,
     payment_type := PaymentType.coupon, payment_status := PaymentStatus.pending,
     description := "Semi-annual coupon payment #3" },
   { investment_id := 1, payment_date := ⟨2026, 1, 15⟩, payment_amount := 105000,
     payment_type := PaymentType.final_payment,
     payment_status := PaymentStatus.pending,
     description := "Final coupon payment + Principal repayment" }]

/-- Month-end-anchored note: issued and purchased 2024-08-31, maturing
2026-08-31 (a whole number of half-years later), rate 0.10, face 100000. -/
def c1CexInv : Investment :=
  { id := 1, user_id := 1, investment_type := InvestmentType.treasury_note,
    description := none, face_value := 100000, purchase_price := 98000,
    annual_coupon_rate := 1/10, issue_date := some ⟨2024, 8, 31⟩,
    purchase_date := ⟨2024, 8, 31⟩, maturity_date := ⟨2026, 8, 31⟩,
    status := InvestmentStatus.active }

/-- What the code actually produces for `c1CexInv`: once the first candidate
clamps to Feb 28, every later candidate keeps day 28, so the loop never lands
on the Aug 31 maturity date and emits four plain coupons. -/
def c1CexActualEvents : List PaymentSchedule :=
  [{ investment_id := 1, payment_date := ⟨2025, 2, 28⟩, payment_amount := 5000,
     payment_type := PaymentType.coupon, payment_status := PaymentStatus.pending,
     description := "Semi-annual coupon payment #1" },
   { investment_id := 1, payment_date := ⟨2025, 8, 28⟩, payment_amount := 5000,
     payment_type := PaymentType.coupon, payment_status := PaymentStatus.pending,
     description := "Semi-annual coupon payment #2" },
   { investment_id := 1, payment_date := ⟨2026, 2, 28⟩, payment_amount := 5000,
     payment_type := PaymentType.coupon, payment_status := PaymentStatus.pending,
     description := "Semi-annual coupon payment #3" },
   { investment_id := 1, payment_date := ⟨2026, 8, 28⟩, payment_amount := 5000,
     payment_type := PaymentType.coupon, payment_status := PaymentStatus.pending,
     description := "Semi-annual coupon payment #4" }]

/-- What claim C1 predicts for `c1CexInv`: candidates at the anchor advanced
by 6, 12, 18, 24 months with day-of-month preserved where valid, so Aug
candidates keep day 31 and the 24-month candidate lands exactly on maturity
as a final payment. -/
def c1CexClaimEvents : List PaymentSchedule :=
  [{ investment_id := 1, payment_date := ⟨2025, 2, 28⟩, payment_amount := 5000,
     payment_type := PaymentType.coupon, payment_status := PaymentStatus.pending,
     description := "Semi-annual coupon payment #1" },
   { investment_id := 1, payment_date := ⟨2025, 8, 31⟩, payment_amount := 5000,
     payment_type := PaymentType.coupon, payment_status := PaymentStatus.pending,
     description := "Semi-annual coupon payment #2" },
   { investment_id := 1, payment_date := ⟨2026, 2, 28⟩, payment_amount := 5000,
     payment_type := PaymentType.coupon, payment_status := PaymentStatus.pending,
     description := "Semi-annual coupon payment #3" },
   { investment_id := 1, payment_date := ⟨2026, 8, 31⟩, payment_amount := 105000,
     payment_type := PaymentType.final_payment,
     payment_status := PaymentStatus.pending,
     description := "Final coupon payment + Principal repayment" }]

/-- A bill: face 100000, purchased 2024-01-15, maturing 2024-07-15. -/
def billInv : Investment :=
  { id := 3, user_id := 1, investment_type := InvestmentType.treasury_bill,
    description := none, face_value := 100000, purchase_price := 97000,
    annual_coupon_rate := 0, issue_date := none,
    purchase_date := ⟨2024, 1, 15⟩, maturity_date := ⟨2024, 7, 15⟩,
    status := InvestmentStatus.active }

/-- The single event the bill's schedule consists of. -/
def billEvents : List PaymentSchedule :=
  [{ investment_id := 3, payment_date := ⟨2024, 7, 15⟩,
     payment_amount := 100000, payment_type := PaymentType.principal,
     payment_status := PaymentStatus.pending,
     description := "Treasury bill maturity payment" }]

/-
Claim theorems.
-/

/-- C2 (confirmed): for every treasury-bill investment, `generate_schedule`
emits exactly one payment event, dated at the maturity date, with amount the
face value and kind principal. -/
theorem c2_bill_single_principal (inv : Investment)
    (h : inv.investment_type = InvestmentType.treasury_bill) :
    generatedEvents inv = Except.ok
      [{ investment_id := inv.id, payment_date := inv.maturity_date,
         payment_amount := inv.face_value,
         payment_type := PaymentType.principal,
         payment_status := PaymentStatus.pending,
         description := "Treasury bill maturity payment" }] := by
  simp [generatedEvents, h]

/-- Witness for C2 at the concrete bill `billInv`. -/
theorem c2_bill_single_principal_witness :
    generatedEvents billInv = Except.ok billEvents :=
  c2_bill_single_principal billInv rfl

lemma generatedEvents_mem_invId (inv : Investment)
    (evs : List PaymentSchedule) (h : generatedEvents inv = Except.ok evs) :
    ∀ e ∈ evs, e.investment_id = inv.id := by
  intro e he
  cases hty : inv.investment_type with
  | treasury_bill =>
    simp only [generatedEvents, hty] at h
    rw [Except.ok.injEq] at h
    subst h
    simp at he
    simp [he]
  | treasury_note =>
    simp only [generatedEvents, hty, notePayments] at h
    cases hiss : inv.issue_date with
    | none => rw [hiss] at h; exact absurd h (by simp)
    | some d0 =>
      rw [hiss] at h
      simp only [Except.ok.injEq] at h
      subst h
      exact noteLoop_mem_invId inv.id _ inv.face_value inv.maturity_date _ _ _ e he

/-- C5 (confirmed): regenerating the schedule over a state that already
contains the freshly generated schedule is a no-op, and the rows carried for
the investment after a successful generation are exactly the generated
events; other investments' rows are untouched by construction. -/
theorem c5_idempotent_regeneration (db db1 : List PaymentSchedule)
    (inv : Investment)
    (h : generate_payment_schedule db inv = Except.ok db1) :
    generate_payment_schedule db1 inv = Except.ok db1 ∧
    ∃ evs, generatedEvents inv = Except.ok evs ∧
      db1.filter (fun p => p.investment_id == inv.id) = evs := by
  unfold generate_payment_schedule at h ⊢
  cases hg : generatedEvents inv with
  | error e => rw [hg] at h; exact absurd h (by simp)
  | ok evs =>
    rw [hg] at h
    simp only [Except.ok.injEq] at h
    subst h
    have hmem : ∀ e ∈ evs, e.investment_id = inv.id :=
      generatedEvents_mem_invId inv evs hg
    constructor
    · rw [List.filter_append, filter_not_invId_idem,
        filter_not_invId_self inv evs hmem, List.append_nil]
    · refine ⟨evs, rfl, ?_⟩
      rw [List.filter_append]
      have h1 : (db.filter (fun p => !(p.investment_id == inv.id))).filter
          (fun p => p.investment_id == inv.id) = [] := by
        rw [List.filter_filter]
        apply List.filter_eq_nil_iff.mpr
        intro a _
        cases hx : a.investment_id == inv.id <;> simp [hx]
      have h2 : evs.filter (fun p => p.investment_id == inv.id) = evs := by
        apply List.filter_eq_self.mpr
        intro a ha
        simp [hmem a ha]
      rw [h1, h2, List.nil_append]

/-- Witness for C5: generating twice over a store that already holds an
unrelated investment's row. -/
theorem c5_idempotent_regeneration_witness :
    ∃ db1, generate_payment_schedule
        [{ investment_id := 9, payment_date := ⟨2024, 3, 1⟩,
           payment_amount := 7, payment_type := PaymentType.coupon,
           payment_status := PaymentStatus.pending, description := "x" }]
        billInv = Except.ok db1 ∧
      generate_payment_schedule db1 billInv = Except.ok db1 := by
  refine ⟨_, rfl, ?_⟩
  exact (c5_idempotent_regeneration _ _ billInv rfl).1

/-- A note whose term is not a whole number of half-years: purchased
2024-01-15, maturing 2024-05-15 (4 months later). The first cadence
candidate, 2024-07-15, already exceeds maturity. -/
def c3Inv : Investment :=
  { id := 4, user_id := 1, investment_type := InvestmentType.treasury_note,
    description := none, face_value := 100000, purchase_price := 99000,
    annual_coupon_rate := 1/10, issue_date := some ⟨2024, 1, 15⟩,
    purchase_date := ⟨2024, 1, 15⟩, maturity_date := ⟨2024, 5, 15⟩,
    status := InvestmentStatus.active }

/-- C3 (counterexample): `c3Inv` satisfies every creation precondition
(maturity after purchase, issue date on the purchase date, positive coupon
rate for a note), yet its generated schedule is empty — it contains zero
events of kind principal or final-payment, not exactly one. -/
theorem c3_counterexample :
    c3Inv.investment_type = InvestmentType.treasury_note ∧
    dateLt c3Inv.purchase_date c3Inv.maturity_date = true ∧
    c3Inv.issue_date = some c3Inv.purchase_date ∧
    (0 : ℚ) < c3Inv.annual_coupon_rate ∧
    generatedEvents c3Inv = Except.ok [] ∧
    (([] : List PaymentSchedule).filter isRedemption).length = 0 := by
  refine ⟨rfl, rfl, rfl, by norm_num [c3Inv], rfl, rfl⟩

/-- C3 (amended): every successfully generated schedule contains at most one
event of kind principal or final-payment; any such event falls exactly on the
maturity date; and a treasury bill's schedule contains exactly one. (The
original "exactly one" fails for notes whose 6-month cadence never lands on
the maturity date, as the loop then stops without a principal event.) -/
theorem c3_amended (inv : Investment) (evs : List PaymentSchedule)
    (h : generatedEvents inv = Except.ok evs) :
    (evs.filter isRedemption).length ≤ 1 ∧
    (∀ e ∈ evs, (e.payment_type = PaymentType.principal ∨
        e.payment_type = PaymentType.final_payment) →
      e.payment_date = inv.maturity_date) ∧
    (inv.investment_type = InvestmentType.treasury_bill →
      (evs.filter isRedemption).length = 1) := by
  cases hty : inv.investment_type with
  | treasury_bill =>
    simp only [generatedEvents, hty] at h
    rw [Except.ok.injEq] at h
    subst h
    refine ⟨by simp [isRedemption], ?_, fun _ => by simp [isRedemption]⟩
    intro e he _
    simp at he
    simp [he]
  | treasury_note =>
    simp only [generatedEvents, hty, notePayments] at h
    cases hiss : inv.issue_date with
    | none => rw [hiss] at h; exact absurd h (by simp)
    | some d0 =>
      rw [hiss] at h
      simp only [Except.ok.injEq] at h
      subst h
      refine ⟨noteLoop_redemption_count inv.id _ inv.face_value
          inv.maturity_date _ _ _, ?_, ?_⟩
      · intro e he htype
        exact noteLoop_mem_final_date inv.id _ inv.face_value
          inv.maturity_date _ _ _ e he htype
      · intro habs
        cases habs

/-- Witness for C3 (amended) at the concrete bill `billInv`. -/
theorem c3_amended_witness :
    (billEvents.filter isRedemption).length = 1 :=
  (c3_amended billInv billEvents rfl).2.2 rfl

/-- C1 (counterexample): for the month-end-anchored note `c1CexInv` (all
preconditions satisfied, issue date present), the schedule the code produces
is not the one the claim describes: the claim's candidates are the anchor
advanced by 6, 12, 18, 24 months (so the Aug candidates keep day 31 and the
24-month candidate is a final payment exactly at maturity), while the code
re-adds 6 months to the already clamped candidate, keeps day 28 forever,
never reaches the maturity date, and emits no final payment at all. -/
theorem c1_counterexample :
    c1CexInv.investment_type = InvestmentType.treasury_note ∧
    c1CexInv.issue_date = some ⟨2024, 8, 31⟩ ∧
    dateLt c1CexInv.purchase_date c1CexInv.maturity_date = true ∧
    (0 : ℚ) < c1CexInv.annual_coupon_rate ∧
    generatedEvents c1CexInv = Except.ok c1CexActualEvents ∧
    claimNoteEvents c1CexInv ⟨2024, 8, 31⟩ = c1CexClaimEvents ∧
    c1CexActualEvents ≠ c1CexClaimEvents := by
  refine ⟨rfl, rfl, rfl, by norm_num [c1CexInv], ?_, ?_, by decide⟩
  · norm_num [generatedEvents, notePayments, noteLoop, addMonths, monthIndex,
      dateLe, daysInMonth, isLeapYear, c1CexInv, c1CexActualEvents]
    decide
  · norm_num [claimNoteEvents, addMonths, monthIndex, dateLe, daysInMonth,
      isLeapYear, c1CexInv, c1CexClaimEvents, List.range_succ]
    decide

/-- C1 (amended): for every treasury-note investment with a present issue
date and a valid maturity date, satisfying the preconditions (maturity after
purchase, positive coupon rate), the generated events are exactly indexed by
the iterated 6-month cadence `cadenceDate` (each single step preserves the
day-of-month where valid and clamps to the target month's last day; the steps
do not compose to one 6k-month jump for month-end anchors): event `k` falls
on `cadenceDate d (k+1)`, an event strictly before maturity is a coupon of
`face_value * annual_coupon_rate / 2`, a candidate equal to maturity is a
final payment of coupon + face value, and candidates are emitted exactly
while they are on or before maturity. The spec's worked example (issued and
purchased 2024-01-15, maturing 2026-01-15, rate 0.10, face 100000) produces
exactly the four events of `c1ExampleEvents`. -/
theorem c1_note_schedule_amended :
    (∀ (inv : Investment) (d : Date),
      inv.investment_type = InvestmentType.treasury_note →
      inv.issue_date = some d →
      validDate inv.maturity_date →
      dateLt inv.purchase_date inv.maturity_date = true →
      0 < inv.annual_coupon_rate →
      ∃ evs, generatedEvents inv = Except.ok evs ∧
        (∀ k, (dateLe (cadenceDate d (k + 1)) inv.maturity_date = true ↔
          k < evs.length)) ∧
        (∀ k (hk : k < evs.length),
          (evs.get ⟨k, hk⟩).payment_date = cadenceDate d (k + 1)) ∧
        (∀ k (hk : k < evs.length),
          cadenceDate d (k + 1) ≠ inv.maturity_date →
          (evs.get ⟨k, hk⟩).payment_type = PaymentType.coupon ∧
          (evs.get ⟨k, hk⟩).payment_amount =
            inv.face_value * inv.annual_coupon_rate / 2) ∧
        (∀ k (hk : k < evs.length),
          cadenceDate d (k + 1) = inv.maturity_date →
          (evs.get ⟨k, hk⟩).payment_type = PaymentType.final_payment ∧
          (evs.get ⟨k, hk⟩).payment_amount =
            inv.face_value * inv.annual_coupon_rate / 2 + inv.face_value)) ∧
    generatedEvents c1ExampleInv = Except.ok c1ExampleEvents := by
  constructor
  · intro inv d hty hiss hvalid hlt hrate
    have hm : inv.maturity_date.month ≤ 12 := hvalid.2.1
    have hfuel : (monthIndex inv.maturity_date + 1 -
        monthIndex (cadenceDate d (0 + 1))).toNat ≤
        (monthIndex inv.maturity_date + 1 -
          monthIndex (cadenceDate d (0 + 1))).toNat + 1 := by
      omega
    obtain ⟨hiff, hget⟩ := noteLoop_spec inv.id
      (inv.face_value * inv.annual_coupon_rate / 2) inv.face_value
      inv.maturity_date d hm
      ((monthIndex inv.maturity_date + 1 -
        monthIndex (cadenceDate d (0 + 1))).toNat + 1) 0 hfuel
    refine ⟨noteLoop ((monthIndex inv.maturity_date + 1 -
        monthIndex (cadenceDate d (0 + 1))).toNat + 1) inv.id
        (inv.face_value * inv.annual_coupon_rate / 2) inv.face_value
        inv.maturity_date (cadenceDate d (0 + 1)) 0, ?_, ?_, ?_, ?_, ?_⟩
    · simp only [generatedEvents, hty, notePayments, hiss]
      rfl
    · intro k
      have hidx : 0 + 1 + k = k + 1 := by omega
      have h := hiff k
      rw [hidx] at h
      exact h
    · intro k hk
      have hidx : 0 + 1 + k = k + 1 := by omega
      have h := hget k hk
      rw [hidx] at h
      rw [h]
      unfold expectedNoteEvent
      by_cases heq : cadenceDate d (k + 1) = inv.maturity_date
      · rw [if_pos heq]
      · rw [if_neg heq]
    · intro k hk hne
      have hidx : 0 + 1 + k = k + 1 := by omega
      have h := hget k hk
      rw [hidx] at h
      rw [h]
      unfold expectedNoteEvent
      rw [if_neg hne]
      exact ⟨rfl, rfl⟩
    · intro k hk heq
      have hidx : 0 + 1 + k = k + 1 := by omega
      have h := hget k hk
      rw [hidx] at h
      rw [h]
      unfold expectedNoteEvent
      rw [if_pos heq]
      exact ⟨rfl, rfl⟩
  · norm_num [generatedEvents, notePayments, noteLoop, addMonths, monthIndex,
      dateLe, daysInMonth, isLeapYear, c1ExampleInv, c1ExampleEvents]
    decide

/-- Witness for C1 (amended): the worked example satisfies the hypotheses;
its schedule has exactly four events (the fifth candidate, 2026-07-15, is
past maturity). -/
theorem c1_note_schedule_amended_witness :
    ∃ evs, generatedEvents c1ExampleInv = Except.ok evs ∧ evs.length = 4 := by
  obtain ⟨evs, hok, hiff, _, _, _⟩ := c1_note_schedule_amended.1 c1ExampleInv
    ⟨2024, 1, 15⟩ rfl rfl (by decide) (by decide)
    (by norm_num [c1ExampleInv])
  refine ⟨evs, hok, ?_⟩
  have h4 : 3 < evs.length := (hiff 3).mp (by decide)
  have h5 : ¬ 4 < evs.length := fun hcon => by
    have := (hiff 4).mpr hcon
    exact absurd this (by decide)
  omega

/-- A note identical to the worked example but with a null issue date, which
the creation schema accepts (`issue_date` is `Optional`). -/
def c4Inv : Investment :=
  { id := 1, user_id := 1, investment_type := InvestmentType.treasury_note,
    description := none, face_value := 100000, purchase_price := 98000,
    annual_coupon_rate := 1/10, issue_date := none,
    purchase_date := ⟨2024, 1, 15⟩, maturity_date := ⟨2026, 1, 15⟩,
    status := InvestmentStatus.active }

/-- `c4Inv` with the purchase date substituted for the missing issue date, as
the spec's fallback prescribes. -/
def c4FallbackInv : Investment :=
  { c4Inv with issue_date := some c4Inv.purchase_date }

/-- C4 (code bug): the generator reads `investment.issue_date` unconditionally
(line 30) and adds `relativedelta(months=6)` to it (line 35); when the issue
date is null this raises `TypeError` instead of falling back to the purchase
date, so no schedule is produced at all — whereas the prescribed fallback
anchor would produce the worked example's four events. -/
theorem c4_missing_issue_date_crash :
    generate_payment_schedule [] c4Inv = Except.error PyRuntimeError.typeError ∧
    generate_payment_schedule [] c4FallbackInv = Except.ok c1ExampleEvents := by
  constructor
  · rfl
  · norm_num [generate_payment_schedule, generatedEvents, notePayments,
      noteLoop, addMonths, monthIndex, dateLe, daysInMonth, isLeapYear,
      c4FallbackInv, c4Inv, c1ExampleEvents]
    decide

/-- The creation request corresponding to `c4Inv`: a treasury note with no
issue date, valid under every schema validator. -/
def c6Data : InvestmentCreate :=
  { investment_type := InvestmentType.treasury_note,
    description := none, face_value := 100000, purchase_price := 98000,
    annual_coupon_rate := 1/10, issue_date := none,
    purchase_date := ⟨2024, 1, 15⟩, maturity_date := ⟨2026, 1, 15⟩ }

/-- C6 (code bug): `create_investment` commits the investment row (line 91)
before invoking the generator (line 95); when generation then fails (here:
`TypeError` on the null issue date), the request errors but the investment
row stays persisted with zero payment events — the store does not fail
closed as the claim states. -/
theorem c6_partial_state_on_failure :
    (create_investment { investments := [], payments := [] } 1 2 c6Data).1 =
      some PyRuntimeError.typeError ∧
    ((create_investment { investments := [], payments := [] } 1 2 c6Data).2).investments.length = 1 ∧
    ((create_investment { investments := [], payments := [] } 1 2 c6Data).2).payments = [] := by
  exact ⟨rfl, rfl, rfl⟩

/-- C7 (confirmed): under the primary-key invariant (investment ids are
unique), `expected_returns` equals the sum of the amounts of exactly those
payment events that belong to one of the user's active investments and whose
status is pending or due; paid and overdue events contribute nothing. -/
theorem c7_expected_returns (db : DB) (user : Nat)
    (hnd : (db.investments.map (fun i => i.id)).Nodup) :
    (get_portfolio_summary db user).expected_returns =
      ((db.payments.filter (fun p => pendingDue p &&
          (db.investments.filter (fun i =>
            i.user_id == user && i.status == InvestmentStatus.active)).any
            (fun i => i.id == p.investment_id))).map
        (fun p => p.payment_amount)).sum := by
  have hnd2 : ((db.investments.filter (fun i =>
      i.user_id == user && i.status == InvestmentStatus.active)).map
      (fun i => i.id)).Nodup :=
    List.Nodup.sublist (List.Sublist.map _ (List.filter_sublist _)) hnd
  exact expected_returns_exchange db.payments _ hnd2

/-- Witness for C7: one active investment with a paid event of amount 1000
and a pending event of amount 2000 contributes 2000, not 3000. -/
theorem c7_expected_returns_witness :
    (get_portfolio_summary
      { investments :=
          [{ id := 1, user_id := 1,
             investment_type := InvestmentType.treasury_bill,
             description := none, face_value := 10000, purchase_price := 9500,
             annual_coupon_rate := 0, issue_date := none,
             purchase_date := ⟨2024, 1, 1⟩, maturity_date := ⟨2024, 7, 1⟩,
             status := InvestmentStatus.active }],
        payments :=
          [{ investment_id := 1, payment_date := ⟨2024, 3, 1⟩,
             payment_amount := 1000, payment_type := PaymentType.coupon,
             payment_status := PaymentStatus.paid, description := "a" },
           { investment_id := 1, payment_date := ⟨2024, 7, 1⟩,
             payment_amount := 2000, payment_type := PaymentType.principal,
             payment_status := PaymentStatus.pending, description := "b" }] }
      1).expected_returns = 2000 := by
  rw [c7_expected_returns _ 1 (by decide)]
  simp +decide [pendingDue]

/-- C8 (code bug): every call to `get_upcoming_payments` raises
`NameError: name 'timedelta' is not defined` — line 316 uses `timedelta`,
but the module's `datetime` import (line 5) binds only `datetime` and
`date` — so the endpoint never returns the windowed payment list. -/
theorem c8_upcoming_payments_name_error (db : DB) (user : Nat) (today : Date)
    (days_ahead limit : Nat) :
    get_upcoming_payments db user today days_ahead limit =
      Except.error (PyRuntimeError.nameError timedeltaName) := by
  simp only [get_upcoming_payments]
  rw [if_neg (show ¬(investmentsModuleNames.contains timedeltaName = true) from
    by decide)]

/-- C9 (confirmed): the summary of an empty active set is all zeros, a zero
total purchase price yields portfolio_yield = 0 without dividing, and a
positive total purchase price yields the ratio formula — no error in any
case. -/
theorem c9_summary_degenerate (db : DB) (user : Nat) :
    ((db.investments.filter (fun i =>
        i.user_id == user && i.status == InvestmentStatus.active)) = [] →
      get_portfolio_summary db user =
        { total_investments := 0, active_investments := 0,
          total_face_value := 0, total_purchase_price := 0,
          expected_returns := 0, expected_profit := 0,
          portfolio_yield := 0 }) ∧
    ((get_portfolio_summary db user).total_purchase_price = 0 →
      (get_portfolio_summary db user).portfolio_yield = 0) ∧
    (0 < (get_portfolio_summary db user).total_purchase_price →
      (get_portfolio_summary db user).portfolio_yield =
        (get_portfolio_summary db user).expected_profit /
          (get_portfolio_summary db user).total_purchase_price * 100) := by
  refine ⟨?_, ?_, ?_⟩
  · intro h
    simp [get_portfolio_summary, h]
  · intro h
    simp only [get_portfolio_summary] at h ⊢
    rw [h]
    norm_num
  · intro h
    simp only [get_portfolio_summary] at h ⊢
    rw [if_pos h]

/-- Witness for C9: the empty store yields the all-zero summary, and a store
with one active investment of positive purchase price takes the ratio
branch. -/
theorem c9_summary_degenerate_witness :
    get_portfolio_summary { investments := [], payments := [] } 1 =
      { total_investments := 0, active_investments := 0,
        total_face_value := 0, total_purchase_price := 0,
        expected_returns := 0, expected_profit := 0, portfolio_yield := 0 } ∧
    (get_portfolio_summary { investments := [billInv], payments := [] }
        1).portfolio_yield =
      (get_portfolio_summary { investments := [billInv], payments := [] }
        1).expected_profit /
        (get_portfolio_summary { investments := [billInv], payments := [] }
          1).total_purchase_price * 100 := by
  constructor
  · exact (c9_summary_degenerate { investments := [], payments := [] } 1).1 rfl
  · exact (c9_summary_degenerate
      { investments := [billInv], payments := [] } 1).2.2
      (by norm_num [get_portfolio_summary, billInv])

/-- C10 (confirmed): a successful investment update leaves the payments table
untouched and preserves, row by row, the identity, ownership, type, amounts,
rate and all three dates of every investment — only `description` and
`status` can change, and no schedule regeneration happens. -/
theorem c10_update_frame (db : DB) (user invId : Nat) (u : InvestmentUpdate)
    (db1 : DB) (h : update_investment db user invId u = Except.ok db1) :
    db1.payments = db.payments ∧
    List.Forall₂ frameAgree db.investments db1.investments := by
  unfold update_investment at h
  cases hf : db.investments.find?
      (fun i => i.id == invId && i.user_id == user) with
  | none => rw [hf] at h; exact absurd h (by simp)
  | some x =>
    rw [hf] at h
    simp only [Except.ok.injEq] at h
    subst h
    exact ⟨rfl, updateFirst_forall2 _ _
      (fun y => applyInvestmentUpdate_frame u y) db.investments⟩

/-- The store expected after the C10 witness update: the bill renamed and
marked sold, payments untouched. -/
def c10ExpectedDB : DB :=
  { investments :=
      [{ id := 3, user_id := 1,
         investment_type := InvestmentType.treasury_bill,
         description := some "renamed", face_value := 100000,
         purchase_price := 97000, annual_coupon_rate := 0,
         issue_date := none, purchase_date := ⟨2024, 1, 15⟩,
         maturity_date := ⟨2024, 7, 15⟩,
         status := InvestmentStatus.sold }],
    payments := billEvents }

/-- Witness for C10: updating description and status of a stored bill leaves
its payments and its schedule-relevant fields unchanged. -/
theorem c10_update_frame_witness :
    ∃ db1, update_investment
        { investments := [billInv], payments := billEvents } 1 3
        { description := some (some "renamed"),
          status := some InvestmentStatus.sold } = Except.ok db1 ∧
      db1.payments = billEvents := by
  have h : update_investment
      { investments := [billInv], payments := billEvents } 1 3
      { description := some (some "renamed"),
        status := some InvestmentStatus.sold } =
    Except.ok c10ExpectedDB := rfl
  exact ⟨_, h, (c10_update_frame _ 1 3 _ _ h).1⟩
